import Mathlib

set_option maxRecDepth 4000
set_option maxHeartbeats 1000000

/-!
Shallow embedding of the webflow-ai-sdk tool layer.

The embedding models the TypeScript sources of the repository:
`src/lib/utils.ts` (field normalizers and site-id resolution),
`src/lib/api.ts` (the `callApi` transport wrapper) and
`src/tools/index.ts` (the eight tool executors).  JavaScript runtime
values observed by this code are modelled by the inductive `JSVal`;
exceptions thrown inside an executor are modelled by `JsErr`, and the
`try`/`catch` wrapper of each executor by a `match` on `Except JsErr`.
The network is modelled by an oracle (`ToolCtx.net`) that yields the
JSON object of the n-th request, or an HTTP failure; the list of
`ApiCall`s actually issued to `fetch` is returned next to each result.
-/

/-- A JavaScript runtime value, as far as the tool layer observes it:
strings, integers (the only numbers the embedded code constructs),
booleans, `null`, `undefined`, arrays and plain objects (ordered
association lists of fields). -/
inductive JSVal where
  | vundefined
  | vnull
  | vbool (b : Bool)
  | vnum (n : Int)
  | vstr (s : String)
  | varr (elems : List JSVal)
  | vobj (fields : List (String × JSVal))

/-- JavaScript truthiness: `undefined`, `null`, `false`, `0` and `""` are
falsy; every other value (including empty arrays and objects) is truthy. -/
def truthy : JSVal → Bool
  | .vundefined => false
  | .vnull => false
  | .vbool b => b
  | .vnum n => n != 0
  | .vstr s => s != ""
  | .varr _ => true
  | .vobj _ => true

mutual

/-- The JavaScript `String(x)` coercion (template-literal coercion). -/
def jsString : JSVal → String
  | .vundefined => "undefined"
  | .vnull => "null"
  | .vbool b => cond b "true" "false"
  | .vnum n => toString n
  | .vstr s => s
  | .varr xs => jsStringList xs
  | .vobj _ => "[object Object]"

/-- `Array.prototype.toString`: elements joined by commas, with nullish
elements rendered as the empty string. -/
def jsStringList : List JSVal → String
  | [] => ""
  | x :: xs =>
    let hd := match x with
      | JSVal.vundefined => ""
      | JSVal.vnull => ""
      | v => jsString v
    match xs with
    | [] => hd
    | _ => hd ++ "," ++ jsStringList xs

end

/-- The JavaScript nullish-coalescing operator `v ?? d`. -/
def nullish (v d : JSVal) : JSVal :=
  match v with
  | .vundefined => d
  | .vnull => d
  | _ => v

/-- Look a key up in an object field list. -/
def lookupField (fields : List (String × JSVal)) (key : String) : Option JSVal :=
  match fields with
  | [] => none
  | (k, v) :: rest => if k = key then some v else lookupField rest key

/-- Property access on an object given by its field list: a missing
property reads as `undefined`. -/
def fieldOf (fields : List (String × JSVal)) (key : String) : JSVal :=
  (lookupField fields key).getD .vundefined

/-- Property access on a value that is known not to be nullish (or where
the surrounding code guarantees JavaScript would yield `undefined`
rather than throw): properties of primitives read as `undefined`. -/
def getProp (v : JSVal) (key : String) : JSVal :=
  match v with
  | .vobj fields => fieldOf fields key
  | _ => .vundefined

/-- An exception thrown inside an executor.  Each constructor corresponds
to one `throw new Error(...)` site of the sources (or to a TypeError the
JavaScript runtime itself would raise); `JsErr.message` gives the
`message` the `catch` handler reads off the `Error` instance. -/
inductive JsErr where
  | missingApiKey
  | upstream (status : Nat) (text : String)
  | siteIdRequired
  | readOfNull (key : String)
  | readOfUndefined (key : String)
  | mapNotAFunction
  deriving Repr, DecidableEq

/-- The `message` of the thrown `Error`.  `missingApiKey` and
`siteIdRequired` are the literal messages of `getApiKey` (src/lib/api.ts)
and `resolveSiteId` (src/lib/utils.ts); `upstream` is the message built
by `callApi` for a non-ok response. -/
def JsErr.message : JsErr → String
  | .missingApiKey => "WEBFLOW_API_KEY environment variable is required"
  | .upstream status text => "Webflow API error " ++ toString status ++ ": " ++ text
  | .siteIdRequired =>
      "A site ID is required. Either pass a siteId or set the WEBFLOW_SITE_ID environment variable."
  | .readOfNull key => "TypeError: Cannot read properties of null (reading " ++ key ++ ")"
  | .readOfUndefined key => "TypeError: Cannot read properties of undefined (reading " ++ key ++ ")"
  | .mapNotAFunction => "TypeError: map is not a function"

/-- Property access on an arbitrary value: JavaScript throws a TypeError
when the receiver is nullish. -/
def getFieldE (v : JSVal) (key : String) : Except JsErr JSVal :=
  match v with
  | .vnull => .error (.readOfNull key)
  | .vundefined => .error (.readOfUndefined key)
  | .vobj fields => .ok (fieldOf fields key)
  | _ => .ok .vundefined

/-- The `(x as T[]) ?? []` then `.map` pattern: nullish collapses to the
empty array, an array maps, anything else makes `.map` throw. -/
def arrOrNil (v : JSVal) : Except JsErr (List JSVal) :=
  match v with
  | .vundefined => .ok []
  | .vnull => .ok []
  | .varr xs => .ok xs
  | _ => .error .mapNotAFunction

/-- The `(x as T[] | undefined)` then `?.map` pattern: nullish
short-circuits to `undefined`, an array maps, anything else throws. -/
def optArr (v : JSVal) : Except JsErr (Option (List JSVal)) :=
  match v with
  | .vundefined => .ok none
  | .vnull => .ok none
  | .varr xs => .ok (some xs)
  | _ => .error .mapNotAFunction

/-- The `x ? String(x) : undefined` pattern. -/
def strIfTruthy (v : JSVal) : Option String :=
  if truthy v then some (jsString v) else none

/-- The `typeof x === "boolean" ? x : undefined` pattern. -/
def boolIfBool : JSVal → Option Bool
  | .vbool b => some b
  | _ => none

/-- The JavaScript `Number(x)` coercion restricted to the integer values
the embedding carries; `none` encodes NaN.  Only used on pagination
fields, always behind a `?? 0` guard. -/
def jsNumber : JSVal → Option Int
  | .vnum n => some n
  | .vbool b => some (cond b 1 0)
  | .vnull => some 0
  | .vstr s => if s = "" then some 0 else s.toInt?
  | _ => none

/-- `getStringField` from src/lib/utils.ts: dual-key lookup on an object,
returning the first truthy candidate stringified. -/
def getStringField (obj : List (String × JSVal)) (snakeCase camelCase : String) : Option String :=
  if truthy (fieldOf obj snakeCase) then some (jsString (fieldOf obj snakeCase))
  else if truthy (fieldOf obj camelCase) then some (jsString (fieldOf obj camelCase))
  else none

/-- `getStringField` as invoked by the executors, where the receiver is an
arbitrary value cast to `Record` (JavaScript throws on a nullish
receiver, yields `undefined` properties on primitives). -/
def getStringFieldJ (v : JSVal) (snakeCase camelCase : String) : Except JsErr (Option String) :=
  match v with
  | .vnull => .error (.readOfNull snakeCase)
  | .vundefined => .error (.readOfUndefined snakeCase)
  | .vobj fields => .ok (getStringField fields snakeCase camelCase)
  | _ => .ok none

/-- The shared `{title?, description?}` shape for SEO and Open Graph. -/
structure TitleDescription where
  title : Option String
  description : Option String
  deriving Repr, DecidableEq

/-- `parseTitleDescription` from src/lib/utils.ts: `undefined` for a falsy
source, otherwise an object with each member stringified if truthy. -/
def parseTitleDescription (raw : JSVal) : Option TitleDescription :=
  if truthy raw then
    some { title := strIfTruthy (getProp raw "title"),
           description := strIfTruthy (getProp raw "description") }
  else none

/-- One value of the form-field mapping produced by `parseFormFields`. -/
structure FormFieldInfo where
  displayName : Option String
  type : Option String
  deriving Repr, DecidableEq

/-- `Object.entries` on the values this code feeds it (objects; primitives
have no own enumerable properties). -/
def jsEntries : JSVal → List (String × JSVal)
  | .vobj fields => fields
  | _ => []

/-- `parseFormFields` from src/lib/utils.ts: `undefined` for a falsy
source, otherwise the per-key `{displayName?, type?}` mapping, collapsed
to `undefined` when it has zero keys.  Reading a property of a nullish
entry value throws, as in JavaScript. -/
def parseFormFields (rawFields : JSVal) : Except JsErr (Option (List (String × FormFieldInfo))) :=
  if truthy rawFields then do
    let fields ← (jsEntries rawFields).mapM (fun kv => do
      let dn ← getFieldE kv.2 "displayName"
      let ty ← getFieldE kv.2 "type"
      pure (kv.1, ({ displayName := strIfTruthy dn, type := strIfTruthy ty } : FormFieldInfo)))
    pure (if fields.length > 0 then some fields else none)
  else pure none

/-- The response the network yields for one request: the parsed JSON
object of a 2xx response, or the status and raw body text of a non-ok
response. -/
inductive NetResp where
  | ok (fields : List (String × JSVal))
  | fail (status : Nat) (text : String)

/-- Process-wide configuration plus the network oracle: `apiKey` models
`process.env.WEBFLOW_API_KEY` (`""` = unset), `defaultSiteId` models
`process.env.WEBFLOW_SITE_ID` (`""` = unset), and `net n` is the
upstream response to the n-th request an executor issues. -/
structure ToolCtx where
  apiKey : String
  defaultSiteId : String
  net : Nat → NetResp

/-- `getDefaultSiteId` from src/lib/utils.ts: `process.env.WEBFLOW_SITE_ID ?? ""`. -/
def getDefaultSiteId (ctx : ToolCtx) : String := ctx.defaultSiteId

/-- `resolveSiteId` from src/lib/utils.ts: `siteId || getDefaultSiteId()`,
throwing when the result is still empty. -/
def resolveSiteId (ctx : ToolCtx) (siteId : Option String) : Except JsErr String :=
  let resolved := match siteId with
    | some s => if s = "" then getDefaultSiteId ctx else s
    | none => getDefaultSiteId ctx
  if resolved = "" then .error .siteIdRequired else .ok resolved

/-- One request as handed to `callApi` in src/lib/api.ts: the path, the
HTTP method, the JSON body if any, and the query-parameter dictionary
(values already string-coerced, `none` for `undefined` entries, which
`callApi` omits from the URL). -/
structure ApiCall where
  path : String
  method : String
  body : Option (List (String × JSVal))
  params : List (String × Option String)

/-- `callApi` from src/lib/api.ts, at the level an executor observes it:
a missing API key throws before any network I/O; otherwise the `idx`-th
oracle response either parses as the JSON object or throws the
`Webflow API error <status>: <text>` error.  The second component is
the list of requests that actually reached `fetch`. -/
def doCall (ctx : ToolCtx) (idx : Nat) (c : ApiCall) :
    Except JsErr (List (String × JSVal)) × List ApiCall :=
  if ctx.apiKey = "" then (.error .missingApiKey, [])
  else match ctx.net idx with
    | .ok fields => (.ok fields, [c])
    | .fail status text => (.error (.upstream status text), [c])

/-- A custom domain as mapped by the executors. -/
structure DomainInfo where
  id : String
  url : String
  deriving Repr, DecidableEq

/-- The `{id: String(d.id ?? ""), url: String(d.url ?? "")}` element mapper. -/
def domainOfJson (d : JSVal) : Except JsErr DomainInfo := do
  let idV ← getFieldE d "id"
  let urlV ← getFieldE d "url"
  pure { id := jsString (nullish idV (.vstr "")), url := jsString (nullish urlV (.vstr "")) }

/-- A site as mapped by `listSites`. -/
structure SiteInfo where
  id : String
  displayName : String
  shortName : String
  lastPublished : Option String
  lastUpdated : Option String
  previewUrl : Option String
  timeZone : Option String
  designerUrl : String
  settingsUrl : String
  customDomains : Option (List DomainInfo)
  deriving Repr, DecidableEq

/-- The element mapper of `listSites` (src/tools/index.ts). -/
def siteOfJson (raw : JSVal) : Except JsErr SiteInfo := do
  let domainsV ← getFieldE raw "customDomains"
  let idV ← getFieldE raw "id"
  let dnV ← getFieldE raw "displayName"
  let snV ← getFieldE raw "shortName"
  let lp ← getStringFieldJ raw "last_published" "lastPublished"
  let lu ← getStringFieldJ raw "last_updated" "lastUpdated"
  let pvV ← getFieldE raw "previewUrl"
  let tzV ← getFieldE raw "timeZone"
  let domains ← optArr domainsV
  let customDomains ← match domains with
    | none => pure none
    | some ds => do
        let mapped ← ds.mapM domainOfJson
        pure (some mapped)
  pure { id := jsString (nullish idV (.vstr "")),
         displayName := jsString (nullish dnV (.vstr "")),
         shortName := jsString (nullish snV (.vstr "")),
         lastPublished := lp,
         lastUpdated := lu,
         previewUrl := strIfTruthy pvV,
         timeZone := strIfTruthy tzV,
         designerUrl := "https://" ++ jsString snV ++ ".design.webflow.com",
         settingsUrl := "https://webflow.com/dashboard/sites/" ++ jsString snV ++ "/general",
         customDomains := customDomains }

/-- A page as mapped by `listPages` and `updatePage`. -/
structure PageInfo where
  id : String
  title : String
  slug : String
  archived : Option Bool
  draft : Option Bool
  createdOn : Option String
  lastUpdated : Option String
  publishedPath : Option String
  seo : Option TitleDescription
  openGraph : Option TitleDescription
  deriving Repr, DecidableEq

/-- The page mapper shared (textually duplicated) by `listPages` and
`updatePage` in src/tools/index.ts. -/
def pageOfJson (page : JSVal) : Except JsErr PageInfo := do
  let idV ← getFieldE page "id"
  let titleV ← getFieldE page "title"
  let slugV ← getFieldE page "slug"
  let archV ← getFieldE page "archived"
  let draftV ← getFieldE page "draft"
  let co ← getStringFieldJ page "created_on" "createdOn"
  let lu ← getStringFieldJ page "last_updated" "lastUpdated"
  let ppV ← getFieldE page "publishedPath"
  let seoV ← getFieldE page "seo"
  let ogV ← getFieldE page "openGraph"
  pure { id := jsString (nullish idV (.vstr "")),
         title := jsString (nullish titleV (.vstr "")),
         slug := jsString (nullish slugV (.vstr "")),
         archived := boolIfBool archV,
         draft := boolIfBool draftV,
         createdOn := co,
         lastUpdated := lu,
         publishedPath := strIfTruthy ppV,
         seo := parseTitleDescription seoV,
         openGraph := parseTitleDescription ogV }

/-- The pagination envelope; `none` members encode NaN coercions. -/
structure Pagination where
  limit : Option Int
  offset : Option Int
  total : Option Int
  deriving Repr, DecidableEq

/-- The `response.pagination ? {limit, offset, total} : undefined`
extraction shared by the paginated list executors. -/
def paginationOf (resp : List (String × JSVal)) : Option Pagination :=
  let pv := fieldOf resp "pagination"
  if truthy pv then
    some { limit := jsNumber (nullish (getProp pv "limit") (.vnum 0)),
           offset := jsNumber (nullish (getProp pv "offset") (.vnum 0)),
           total := jsNumber (nullish (getProp pv "total") (.vnum 0)) }
  else none

/-- A form as mapped by `listForms`. -/
structure FormInfo where
  id : String
  displayName : String
  pageId : Option String
  pageName : Option String
  formElementId : Option String
  fields : Option (List (String × FormFieldInfo))
  createdOn : Option String
  lastUpdated : Option String
  deriving Repr, DecidableEq

/-- The element mapper of `listForms` (src/tools/index.ts). -/
def formOfJson (form : JSVal) : Except JsErr FormInfo := do
  let idV ← getFieldE form "id"
  let dnV ← getFieldE form "displayName"
  let pidV ← getFieldE form "pageId"
  let pnV ← getFieldE form "pageName"
  let feid ← getStringFieldJ form "form_element_id" "formElementId"
  let fieldsV ← getFieldE form "fields"
  let fields ← parseFormFields fieldsV
  let co ← getStringFieldJ form "created_on" "createdOn"
  let lu ← getStringFieldJ form "last_updated" "lastUpdated"
  pure { id := jsString (nullish idV (.vstr "")),
         displayName := jsString (nullish dnV (.vstr "")),
         pageId := strIfTruthy pidV,
         pageName := strIfTruthy pnV,
         formElementId := feid,
         fields := fields,
         createdOn := co,
         lastUpdated := lu }

/-- A form submission as mapped by `listFormSubmissions`; `formResponse`
is the schema-less pass-through payload. -/
structure SubmissionInfo where
  id : String
  displayName : Option String
  dateSubmitted : Option String
  formResponse : JSVal

/-- The element mapper of `listFormSubmissions` (src/tools/index.ts). -/
def submissionOfJson (submission : JSVal) : Except JsErr SubmissionInfo := do
  let idV ← getFieldE submission "id"
  let dnV ← getFieldE submission "displayName"
  let ds ← getStringFieldJ submission "date_submitted" "dateSubmitted"
  let frV ← getFieldE submission "formResponse"
  pure { id := jsString (nullish idV (.vstr "")),
         displayName := strIfTruthy dnV,
         dateSubmitted := ds,
         formResponse := nullish frV (.vobj []) }

/-- A registered script as mapped by `listCustomCode`. -/
structure ScriptInfo where
  id : String
  location : String
  version : String
  deriving Repr, DecidableEq

/-- The inner script mapper of `listCustomCode`. -/
def scriptOfJson (script : JSVal) : Except JsErr ScriptInfo := do
  let idV ← getFieldE script "id"
  let locV ← getFieldE script "location"
  let verV ← getFieldE script "version"
  pure { id := jsString (nullish idV (.vstr "")),
         location := jsString (nullish locV (.vstr "")),
         version := jsString (nullish verV (.vstr "")) }

/-- A custom-code block as mapped by `listCustomCode`. -/
structure BlockInfo where
  siteId : String
  pageId : Option String
  type : Option String
  scripts : List ScriptInfo
  createdOn : Option String
  lastUpdated : Option String
  deriving Repr, DecidableEq

/-- The element mapper of `listCustomCode` (src/tools/index.ts). -/
def blockOfJson (block : JSVal) : Except JsErr BlockInfo := do
  let scriptsV ← getFieldE block "scripts"
  let rawScripts ← arrOrNil scriptsV
  let sidV ← getFieldE block "siteId"
  let pidV ← getFieldE block "pageId"
  let tyV ← getFieldE block "type"
  let scripts ← rawScripts.mapM scriptOfJson
  let co ← getStringFieldJ block "created_on" "createdOn"
  let lu ← getStringFieldJ block "last_updated" "lastUpdated"
  pure { siteId := jsString (nullish sidV (.vstr "")),
         pageId := strIfTruthy pidV,
         type := strIfTruthy tyV,
         scripts := scripts,
         createdOn := co,
         lastUpdated := lu }

/-- Result shape of `listSites` (ListSitesResultSchema). -/
structure ListSitesResult where
  sites : List SiteInfo
  count : Nat
  error : Option String := none
  deriving Repr, DecidableEq

/-- The `listSites` executor (src/tools/index.ts): one GET to `/sites`,
mapping each raw site, with the `catch` clause collapsing every thrown
error to an empty list plus its message. -/
def listSitesExec (ctx : ToolCtx) : ListSitesResult × List ApiCall :=
  let r := doCall ctx 0 { path := "/sites", method := "GET", body := none, params := [] }
  match r.1.bind (fun resp =>
      (arrOrNil (fieldOf resp "sites")).bind (fun raws => raws.mapM siteOfJson)) with
  | .ok sites => ({ sites := sites, count := sites.length }, r.2)
  | .error e => ({ sites := [], count := 0, error := some e.message }, r.2)

/-- Arguments of `publishSite`. -/
structure PublishSiteArgs where
  siteId : Option String := none
  customDomains : Option (List String) := none
  publishToWebflowSubdomain : Option Bool := none

/-- Result shape of `publishSite` (PublishSiteResultSchema). -/
structure PublishSiteResult where
  success : Bool
  publishedDomains : Option (List DomainInfo) := none
  error : Option String := none
  deriving Repr, DecidableEq

/-- The `publishSite` executor (src/tools/index.ts): resolves the site id,
builds the publish body (`publishToWebflowSubdomain ?? false`; the
`customDomains` key only for a non-empty array), POSTs it, and maps the
returned domains. -/
def publishSiteExec (ctx : ToolCtx) (args : PublishSiteArgs) :
    PublishSiteResult × List ApiCall :=
  match resolveSiteId ctx args.siteId with
  | .error e => ({ success := false, error := some e.message }, [])
  | .ok resolvedSiteId =>
    let body :=
      [("publishToWebflowSubdomain", JSVal.vbool (args.publishToWebflowSubdomain.getD false))] ++
      (match args.customDomains with
       | some ds => if ds.length > 0 then [("customDomains", JSVal.varr (ds.map JSVal.vstr))] else []
       | none => [])
    let r := doCall ctx 0 { path := "/sites/" ++ resolvedSiteId ++ "/publish", method := "POST",
                            body := some body, params := [] }
    match r.1.bind (fun resp =>
        (optArr (fieldOf resp "customDomains")).bind (fun domains =>
          match domains with
          | none => Except.ok none
          | some ds => (ds.mapM domainOfJson).map some)) with
    | .ok pd => ({ success := true, publishedDomains := pd }, r.2)
    | .error e => ({ success := false, error := some e.message }, r.2)

/-- Arguments of `listPages`. -/
structure ListPagesArgs where
  siteId : Option String := none
  limit : Option Int := none
  offset : Option Int := none

/-- Result shape of `listPages` (ListPagesResultSchema). -/
structure ListPagesResult where
  pages : List PageInfo
  count : Nat
  pagination : Option Pagination := none
  error : Option String := none
  deriving Repr, DecidableEq

/-- The `listPages` executor (src/tools/index.ts). -/
def listPagesExec (ctx : ToolCtx) (args : ListPagesArgs) : ListPagesResult × List ApiCall :=
  match resolveSiteId ctx args.siteId with
  | .error e => ({ pages := [], count := 0, error := some e.message }, [])
  | .ok resolvedSiteId =>
    let r := doCall ctx 0 { path := "/sites/" ++ resolvedSiteId ++ "/pages", method := "GET",
                            body := none,
                            params := [("limit", args.limit.map toString),
                                       ("offset", args.offset.map toString)] }
    match r.1 with
    | .error e => ({ pages := [], count := 0, error := some e.message }, r.2)
    | .ok resp =>
      match (arrOrNil (fieldOf resp "pages")).bind (fun raws => raws.mapM pageOfJson) with
      | .ok pages =>
        ({ pages := pages, count := pages.length, pagination := paginationOf resp }, r.2)
      | .error e => ({ pages := [], count := 0, error := some e.message }, r.2)

/-- The nested `{title?, description?}` argument of `updatePage`. -/
structure SeoArgs where
  title : Option String := none
  description : Option String := none
  deriving Repr, DecidableEq

/-- Arguments of `updatePage`. -/
structure UpdatePageArgs where
  pageId : String
  title : Option String := none
  slug : Option String := none
  seo : Option SeoArgs := none
  openGraph : Option SeoArgs := none

/-- The JSON object a supplied `seo`/`openGraph` argument serializes to
(absent members are simply not keys). -/
def seoArgsToJson (s : SeoArgs) : JSVal :=
  .vobj ((match s.title with | some t => [("title", JSVal.vstr t)] | none => []) ++
         (match s.description with | some d => [("description", JSVal.vstr d)] | none => []))

/-- Result shape of `updatePage` (UpdatePageResultSchema). -/
structure UpdatePageResult where
  success : Bool
  page : Option PageInfo := none
  error : Option String := none
  deriving Repr, DecidableEq

/-- The `updatePage` executor (src/tools/index.ts): the body receives
exactly the supplied optional fields (each guarded by
`if (x !== undefined)`), then one PUT to `/pages/{pageId}` whose
response is mapped back to a page. -/
def updatePageExec (ctx : ToolCtx) (args : UpdatePageArgs) : UpdatePageResult × List ApiCall :=
  let body :=
    (match args.title with | some t => [("title", JSVal.vstr t)] | none => []) ++
    (match args.slug with | some s => [("slug", JSVal.vstr s)] | none => []) ++
    (match args.seo with | some s => [("seo", seoArgsToJson s)] | none => []) ++
    (match args.openGraph with | some s => [("openGraph", seoArgsToJson s)] | none => [])
  let r := doCall ctx 0 { path := "/pages/" ++ args.pageId, method := "PUT",
                          body := some body, params := [] }
  match r.1.bind (fun resp => pageOfJson (.vobj resp)) with
  | .ok page => ({ success := true, page := some page }, r.2)
  | .error e => ({ success := false, error := some e.message }, r.2)

/-- Arguments of `listForms`. -/
structure ListFormsArgs where
  siteId : Option String := none
  limit : Option Int := none
  offset : Option Int := none

/-- Result shape of `listForms` (ListFormsResultSchema). -/
structure ListFormsResult where
  forms : List FormInfo
  count : Nat
  pagination : Option Pagination := none
  error : Option String := none
  deriving Repr, DecidableEq

/-- The `listForms` executor (src/tools/index.ts). -/
def listFormsExec (ctx : ToolCtx) (args : ListFormsArgs) : ListFormsResult × List ApiCall :=
  match resolveSiteId ctx args.siteId with
  | .error e => ({ forms := [], count := 0, error := some e.message }, [])
  | .ok resolvedSiteId =>
    let r := doCall ctx 0 { path := "/sites/" ++ resolvedSiteId ++ "/forms", method := "GET",
                            body := none,
                            params := [("limit", args.limit.map toString),
                                       ("offset", args.offset.map toString)] }
    match r.1 with
    | .error e => ({ forms := [], count := 0, error := some e.message }, r.2)
    | .ok resp =>
      match (arrOrNil (fieldOf resp "forms")).bind (fun raws => raws.mapM formOfJson) with
      | .ok forms =>
        ({ forms := forms, count := forms.length, pagination := paginationOf resp }, r.2)
      | .error e => ({ forms := [], count := 0, error := some e.message }, r.2)

/-- Arguments of `listFormSubmissions`. -/
structure ListFormSubmissionsArgs where
  siteId : Option String := none
  elementId : Option String := none
  limit : Option Int := none
  offset : Option Int := none

/-- Result shape of `listFormSubmissions` (ListFormSubmissionsResultSchema). -/
structure ListFormSubmissionsResult where
  formSubmissions : List SubmissionInfo
  count : Nat
  pagination : Option Pagination := none
  error : Option String := none

/-- The `listFormSubmissions` executor (src/tools/index.ts). -/
def listFormSubmissionsExec (ctx : ToolCtx) (args : ListFormSubmissionsArgs) :
    ListFormSubmissionsResult × List ApiCall :=
  match resolveSiteId ctx args.siteId with
  | .error e => ({ formSubmissions := [], count := 0, error := some e.message }, [])
  | .ok resolvedSiteId =>
    let r := doCall ctx 0 { path := "/sites/" ++ resolvedSiteId ++ "/form_submissions",
                            method := "GET", body := none,
                            params := [("elementId", args.elementId),
                                       ("limit", args.limit.map toString),
                                       ("offset", args.offset.map toString)] }
    match r.1 with
    | .error e => ({ formSubmissions := [], count := 0, error := some e.message }, r.2)
    | .ok resp =>
      match (arrOrNil (fieldOf resp "formSubmissions")).bind
          (fun raws => raws.mapM submissionOfJson) with
      | .ok subs =>
        ({ formSubmissions := subs, count := subs.length, pagination := paginationOf resp }, r.2)
      | .error e => ({ formSubmissions := [], count := 0, error := some e.message }, r.2)

/-- Arguments of `listCustomCode`. -/
structure ListCustomCodeArgs where
  siteId : Option String := none
  limit : Option Int := none
  offset : Option Int := none

/-- Result shape of `listCustomCode` (ListCustomCodeResultSchema). -/
structure ListCustomCodeResult where
  blocks : List BlockInfo
  count : Nat
  pagination : Option Pagination := none
  error : Option String := none
  deriving Repr, DecidableEq

/-- The `listCustomCode` executor (src/tools/index.ts). -/
def listCustomCodeExec (ctx : ToolCtx) (args : ListCustomCodeArgs) :
    ListCustomCodeResult × List ApiCall :=
  match resolveSiteId ctx args.siteId with
  | .error e => ({ blocks := [], count := 0, error := some e.message }, [])
  | .ok resolvedSiteId =>
    let r := doCall ctx 0 { path := "/sites/" ++ resolvedSiteId ++ "/custom_code/blocks",
                            method := "GET", body := none,
                            params := [("limit", args.limit.map toString),
                                       ("offset", args.offset.map toString)] }
    match r.1 with
    | .error e => ({ blocks := [], count := 0, error := some e.message }, r.2)
    | .ok resp =>
      match (arrOrNil (fieldOf resp "blocks")).bind (fun raws => raws.mapM blockOfJson) with
      | .ok blocks =>
        ({ blocks := blocks, count := blocks.length, pagination := paginationOf resp }, r.2)
      | .error e => ({ blocks := [], count := 0, error := some e.message }, r.2)

/-- The `target` argument of `addCustomCode`. -/
inductive CodeTarget where
  | site
  | page
  deriving Repr, DecidableEq

/-- The `location` argument of `addCustomCode`. -/
inductive ScriptLocation where
  | header
  | footer
  deriving Repr, DecidableEq

/-- The wire string of a `ScriptLocation`. -/
def ScriptLocation.toStr : ScriptLocation → String
  | .header => "header"
  | .footer => "footer"

/-- Arguments of `addCustomCode`. -/
structure AddCustomCodeArgs where
  siteId : Option String := none
  target : CodeTarget
  pageId : Option String := none
  sourceCode : String
  displayName : String
  version : String
  location : ScriptLocation

/-- Result shape of `addCustomCode` (AddCustomCodeResultSchema). -/
structure AddCustomCodeResult where
  success : Bool
  scriptId : String
  appliedTo : Option String := none
  error : Option String := none
  deriving Repr, DecidableEq

/-- The string a `pageId` of `string | undefined` type interpolates to. -/
def optStrVal : Option String → JSVal
  | some s => .vstr s
  | none => .vundefined

/-- The `addCustomCode` executor (src/tools/index.ts): the two
preconditions (missing pageId for a page target, then the 2000-character
limit), then site-id resolution, then the registration POST, the
empty-script-id check, and the application PUT; the `catch` clause
collapses every thrown error to `success:false, scriptId:""`. -/
def addCustomCodeExec (ctx : ToolCtx) (args : AddCustomCodeArgs) :
    AddCustomCodeResult × List ApiCall :=
  if args.target = CodeTarget.page ∧ args.pageId.getD "" = "" then
    ({ success := false, scriptId := "",
       error := some "A pageId is required when target is \"page\". Use listPages to find page IDs." },
     [])
  else if args.sourceCode.length > 2000 then
    ({ success := false, scriptId := "",
       error := some ("Script exceeds the 2000 character limit (" ++
                      toString args.sourceCode.length ++
                      " characters). Consider hosting the script externally.") }, [])
  else
    match resolveSiteId ctx args.siteId with
    | .error e => ({ success := false, scriptId := "", error := some e.message }, [])
    | .ok resolvedSiteId =>
      let r1 := doCall ctx 0
        { path := "/sites/" ++ resolvedSiteId ++ "/registered_scripts/inline",
          method := "POST",
          body := some [("sourceCode", JSVal.vstr args.sourceCode),
                        ("version", JSVal.vstr args.version),
                        ("displayName", JSVal.vstr args.displayName)],
          params := [] }
      match r1.1 with
      | .error e => ({ success := false, scriptId := "", error := some e.message }, r1.2)
      | .ok registered =>
        let scriptId := jsString (nullish (fieldOf registered "id") (.vstr ""))
        if scriptId = "" then
          ({ success := false, scriptId := "",
             error := some "Failed to register script: no script ID returned" }, r1.2)
        else
          let scriptPayload :=
            [("scripts", JSVal.varr [JSVal.vobj
              [("id", JSVal.vstr scriptId),
               ("location", JSVal.vstr args.location.toStr),
               ("version", JSVal.vstr args.version)]])]
          let applyReq : ApiCall :=
            if args.target = CodeTarget.page ∧ args.pageId.getD "" ≠ "" then
              { path := "/pages/" ++ args.pageId.getD "" ++ "/custom_code", method := "PUT",
                body := some scriptPayload, params := [] }
            else
              { path := "/sites/" ++ resolvedSiteId ++ "/custom_code", method := "PUT",
                body := some scriptPayload, params := [] }
          let r2 := doCall ctx 1 applyReq
          match r2.1 with
          | .error e =>
            ({ success := false, scriptId := "", error := some e.message }, r1.2 ++ r2.2)
          | .ok _ =>
            ({ success := true, scriptId := scriptId,
               appliedTo := some (if args.target = CodeTarget.page
                 then "page:" ++ jsString (optStrVal args.pageId)
                 else "site:" ++ resolvedSiteId) }, r1.2 ++ r2.2)

/-- A string with a non-empty left factor is non-empty. -/
theorem append_ne_empty_left (s t : String) (h : s ≠ "") : s ++ t ≠ "" := by
  intro he
  apply h
  have hl : (s ++ t).length = 0 := by rw [he]; rfl
  rw [String.length_append] at hl
  have hs : s.length = 0 := by omega
  cases s with
  | mk data =>
    cases data with
    | nil => rfl
    | cons c cs => simp [String.length] at hs

/-- Every message the embedded code can attach to a thrown error is
non-empty. -/
theorem JsErr.message_ne_empty (e : JsErr) : e.message ≠ "" := by
  cases e with
  | upstream status text =>
    show "Webflow API error " ++ toString status ++ ": " ++ text ≠ ""
    apply append_ne_empty_left
    apply append_ne_empty_left
    apply append_ne_empty_left
    decide
  | missingApiKey => decide
  | siteIdRequired => decide
  | readOfNull key =>
    show "TypeError: Cannot read properties of null (reading " ++ key ++ ")" ≠ ""
    apply append_ne_empty_left; apply append_ne_empty_left; decide
  | readOfUndefined key =>
    show "TypeError: Cannot read properties of undefined (reading " ++ key ++ ")" ≠ ""
    apply append_ne_empty_left; apply append_ne_empty_left; decide
  | mapNotAFunction => decide

/-- C6 counterexample: dual-key resolution does not return the first
PRESENT value stringified.  In the object `{last_published: ""}` the
snake-case key is present with value `""` (whose stringification is
`""`), yet `getStringField` skips it — the lookup tests truthiness, not
presence — and resolves to absent instead of `some ""`. -/
theorem getStringField_present_falsy_counterexample :
    lookupField [("last_published", JSVal.vstr "")] "last_published" = some (JSVal.vstr "") ∧
    getStringField [("last_published", JSVal.vstr "")] "last_published" "lastPublished" = none ∧
    getStringField [("last_published", JSVal.vstr "")] "last_published" "lastPublished" ≠
      some (jsString (JSVal.vstr "")) :=
  ⟨rfl, rfl, by decide⟩

/-- C6 amended: dual-key resolution returns the first TRUTHY candidate
value stringified (falsy present values — the empty string, `0`,
`false`, `null` — are skipped as if absent), else absent; in particular
`{last_published:"X"}` resolves to `"X"`, `{lastPublished:"Y"}` to
`"Y"`, both keys present prefers the snake-case key, and neither key
resolves to absent. -/
theorem getStringField_resolution (obj : List (String × JSVal)) (snakeCase camelCase : String) :
    (truthy (fieldOf obj snakeCase) = true →
      getStringField obj snakeCase camelCase = some (jsString (fieldOf obj snakeCase))) ∧
    (truthy (fieldOf obj snakeCase) = false → truthy (fieldOf obj camelCase) = true →
      getStringField obj snakeCase camelCase = some (jsString (fieldOf obj camelCase))) ∧
    (truthy (fieldOf obj snakeCase) = false → truthy (fieldOf obj camelCase) = false →
      getStringField obj snakeCase camelCase = none) ∧
    getStringField [("last_published", JSVal.vstr "X")] "last_published" "lastPublished" =
      some "X" ∧
    getStringField [("lastPublished", JSVal.vstr "Y")] "last_published" "lastPublished" =
      some "Y" ∧
    getStringField [("last_published", JSVal.vstr "X"), ("lastPublished", JSVal.vstr "Y")]
      "last_published" "lastPublished" = some "X" ∧
    getStringField [] "last_published" "lastPublished" = none := by
  refine ⟨?_, ?_, ?_, by decide, by decide, by decide, by decide⟩
  · intro h; simp [getStringField, h]
  · intro h1 h2; simp [getStringField, h1, h2]
  · intro h1 h2; simp [getStringField, h1, h2]

/-- C6 witness: the amended resolution rule evaluated at the concrete
object `{a:"v"}`. -/
theorem getStringField_resolution_witness :
    truthy (fieldOf [("a", JSVal.vstr "v")] "a") = true ∧
    getStringField [("a", JSVal.vstr "v")] "a" "b" =
      some (jsString (fieldOf [("a", JSVal.vstr "v")] "a")) :=
  ⟨by decide, (getStringField_resolution [("a", JSVal.vstr "v")] "a" "b").1 (by decide)⟩

/-- C7: title/description normalization yields nothing for an absent
source object, and a present object with title `"T"` and absent
description for the source `{title:"T"}`; the two outputs are distinct. -/
theorem parseTitleDescription_absence_vs_presence :
    parseTitleDescription JSVal.vundefined = none ∧
    parseTitleDescription (JSVal.vobj [("title", JSVal.vstr "T")]) =
      some { title := some "T", description := none } ∧
    (some { title := some "T", description := none } : Option TitleDescription) ≠ none := by
  decide

/-- C9: site-identifier resolution uses a supplied (non-empty) explicit
identifier; otherwise it falls back to the process-wide default; when
neither is available it fails with the configuration error — and a
site-scoped capability (`listPages`) then returns that error having made
zero network calls. -/
theorem resolveSiteId_fallback (ctx : ToolCtx) :
    (∀ s, s ≠ "" → resolveSiteId ctx (some s) = .ok s) ∧
    (getDefaultSiteId ctx ≠ "" → resolveSiteId ctx none = .ok (getDefaultSiteId ctx)) ∧
    (getDefaultSiteId ctx = "" → resolveSiteId ctx none = .error .siteIdRequired) ∧
    (∀ limit offset, getDefaultSiteId ctx = "" →
      (listPagesExec ctx { siteId := none, limit := limit, offset := offset }).2 = [] ∧
      (listPagesExec ctx { siteId := none, limit := limit, offset := offset }).1.error =
        some JsErr.siteIdRequired.message) := by
  refine ⟨?_, ?_, ?_, ?_⟩
  · intro s hs; simp [resolveSiteId, hs]
  · intro hd; simp [resolveSiteId, hd]
  · intro hd; simp [resolveSiteId, hd]
  · intro limit offset hd
    constructor <;> simp [listPagesExec, resolveSiteId, hd]

/-- C9 witness: resolution evaluated at concrete configurations. -/
theorem resolveSiteId_fallback_witness :
    ("site-9" : String) ≠ "" ∧
    resolveSiteId { apiKey := "k", defaultSiteId := "", net := fun _ => NetResp.ok [] }
      (some "site-9") = .ok "site-9" ∧
    (listPagesExec { apiKey := "k", defaultSiteId := "", net := fun _ => NetResp.ok [] }
      { siteId := none, limit := none, offset := none }).2 = [] :=
  ⟨by decide,
   (resolveSiteId_fallback _).1 "site-9" (by decide),
   ((resolveSiteId_fallback { apiKey := "k", defaultSiteId := "", net := fun _ => NetResp.ok [] }).2.2.2
      none none rfl).1⟩

/-- C4: every list-returning capability reports `count` equal to the
length of the returned list, for every configuration and every upstream
response (populated, empty, or failing). -/
theorem listResults_count_eq_length (ctx : ToolCtx) (pa : ListPagesArgs) (fa : ListFormsArgs)
    (sa : ListFormSubmissionsArgs) (ca : ListCustomCodeArgs) :
    (listSitesExec ctx).1.count = (listSitesExec ctx).1.sites.length ∧
    (listPagesExec ctx pa).1.count = (listPagesExec ctx pa).1.pages.length ∧
    (listFormsExec ctx fa).1.count = (listFormsExec ctx fa).1.forms.length ∧
    (listFormSubmissionsExec ctx sa).1.count =
      (listFormSubmissionsExec ctx sa).1.formSubmissions.length ∧
    (listCustomCodeExec ctx ca).1.count = (listCustomCodeExec ctx ca).1.blocks.length := by
  refine ⟨?_, ?_, ?_, ?_, ?_⟩
  · simp only [listSitesExec]; repeat' split
    all_goals rfl
  · simp only [listPagesExec]; repeat' split
    all_goals rfl
  · simp only [listFormsExec]; repeat' split
    all_goals rfl
  · simp only [listFormSubmissionsExec]; repeat' split
    all_goals rfl
  · simp only [listCustomCodeExec]; repeat' split
    all_goals rfl

/-- C5: for every capability and every execution outcome exactly one of
two states holds: the success indicator is true (for list capabilities,
the error field absent) with no error, or the success indicator is false
(for list capabilities, an empty list with count 0) with a non-empty
error string. -/
theorem results_success_xor_error (ctx : ToolCtx) (ba : PublishSiteArgs) (ua : UpdatePageArgs)
    (aa : AddCustomCodeArgs) (pa : ListPagesArgs) (fa : ListFormsArgs)
    (sa : ListFormSubmissionsArgs) (ca : ListCustomCodeArgs) :
    ((listSitesExec ctx).1.error = none ∨
      (∃ m, (listSitesExec ctx).1.error = some m ∧ m ≠ "" ∧
        (listSitesExec ctx).1.sites = [] ∧ (listSitesExec ctx).1.count = 0)) ∧
    ((listPagesExec ctx pa).1.error = none ∨
      (∃ m, (listPagesExec ctx pa).1.error = some m ∧ m ≠ "" ∧
        (listPagesExec ctx pa).1.pages = [] ∧ (listPagesExec ctx pa).1.count = 0)) ∧
    ((listFormsExec ctx fa).1.error = none ∨
      (∃ m, (listFormsExec ctx fa).1.error = some m ∧ m ≠ "" ∧
        (listFormsExec ctx fa).1.forms = [] ∧ (listFormsExec ctx fa).1.count = 0)) ∧
    ((listFormSubmissionsExec ctx sa).1.error = none ∨
      (∃ m, (listFormSubmissionsExec ctx sa).1.error = some m ∧ m ≠ "" ∧
        (listFormSubmissionsExec ctx sa).1.formSubmissions = [] ∧
        (listFormSubmissionsExec ctx sa).1.count = 0)) ∧
    ((listCustomCodeExec ctx ca).1.error = none ∨
      (∃ m, (listCustomCodeExec ctx ca).1.error = some m ∧ m ≠ "" ∧
        (listCustomCodeExec ctx ca).1.blocks = [] ∧ (listCustomCodeExec ctx ca).1.count = 0)) ∧
    (((publishSiteExec ctx ba).1.success = true ∧ (publishSiteExec ctx ba).1.error = none) ∨
      ((publishSiteExec ctx ba).1.success = false ∧
        ∃ m, (publishSiteExec ctx ba).1.error = some m ∧ m ≠ "")) ∧
    (((updatePageExec ctx ua).1.success = true ∧ (updatePageExec ctx ua).1.error = none) ∨
      ((updatePageExec ctx ua).1.success = false ∧
        ∃ m, (updatePageExec ctx ua).1.error = some m ∧ m ≠ "")) ∧
    (((addCustomCodeExec ctx aa).1.success = true ∧ (addCustomCodeExec ctx aa).1.error = none) ∨
      ((addCustomCodeExec ctx aa).1.success = false ∧
        ∃ m, (addCustomCodeExec ctx aa).1.error = some m ∧ m ≠ "")) := by
  refine ⟨?_, ?_, ?_, ?_, ?_, ?_, ?_, ?_⟩
  · simp only [listSitesExec]; repeat' split
    all_goals first
      | exact Or.inl rfl
      | exact Or.inr ⟨_, rfl, JsErr.message_ne_empty _, rfl, rfl⟩
  · simp only [listPagesExec]; repeat' split
    all_goals first
      | exact Or.inl rfl
      | exact Or.inr ⟨_, rfl, JsErr.message_ne_empty _, rfl, rfl⟩
  · simp only [listFormsExec]; repeat' split
    all_goals first
      | exact Or.inl rfl
      | exact Or.inr ⟨_, rfl, JsErr.message_ne_empty _, rfl, rfl⟩
  · simp only [listFormSubmissionsExec]; repeat' split
    all_goals first
      | exact Or.inl rfl
      | exact Or.inr ⟨_, rfl, JsErr.message_ne_empty _, rfl, rfl⟩
  · simp only [listCustomCodeExec]; repeat' split
    all_goals first
      | exact Or.inl rfl
      | exact Or.inr ⟨_, rfl, JsErr.message_ne_empty _, rfl, rfl⟩
  · simp only [publishSiteExec]; repeat' split
    all_goals first
      | exact Or.inl ⟨rfl, rfl⟩
      | exact Or.inr ⟨rfl, _, rfl, JsErr.message_ne_empty _⟩
  · simp only [updatePageExec]; repeat' split
    all_goals first
      | exact Or.inl ⟨rfl, rfl⟩
      | exact Or.inr ⟨rfl, _, rfl, JsErr.message_ne_empty _⟩
  · simp only [addCustomCodeExec]; repeat' split
    all_goals first
      | exact Or.inl ⟨rfl, rfl⟩
      | exact Or.inr ⟨rfl, _, rfl, JsErr.message_ne_empty _⟩
      | exact Or.inr ⟨rfl, _, rfl, by decide⟩
      | exact Or.inr ⟨rfl, _, rfl,
          append_ne_empty_left _ _ (append_ne_empty_left _ _ (by decide))⟩

/-- C2: with target `"page"` and no pageId the composite workflow fails
with an error containing "pageId is required" and zero network calls;
with an oversized source (past the pageId check) it fails with an error
containing "2000 character" and the actual length, and zero network
calls; the pageId precondition is checked first (its failure needs no
size hypothesis, so it wins when both would fail). -/
theorem addCustomCode_precondition_checks (ctx : ToolCtx) (args : AddCustomCodeArgs) :
    (args.target = CodeTarget.page ∧ args.pageId.getD "" = "" →
      (addCustomCodeExec ctx args).1.success = false ∧
      (∃ pre post, (addCustomCodeExec ctx args).1.error =
        some (pre ++ "pageId is required" ++ post)) ∧
      (addCustomCodeExec ctx args).2 = []) ∧
    (¬(args.target = CodeTarget.page ∧ args.pageId.getD "" = "") →
      args.sourceCode.length > 2000 →
      (addCustomCodeExec ctx args).1.success = false ∧
      (∃ pre post, (addCustomCodeExec ctx args).1.error =
        some (pre ++ "2000 character" ++ post)) ∧
      (∃ pre post, (addCustomCodeExec ctx args).1.error =
        some (pre ++ toString args.sourceCode.length ++ post)) ∧
      (addCustomCodeExec ctx args).2 = []) := by
  constructor
  · intro h
    simp only [addCustomCodeExec, if_pos h]
    refine ⟨trivial, ⟨"A ", " when target is \"page\". Use listPages to find page IDs.", ?_⟩,
      trivial⟩
    decide
  · intro h hlen
    simp only [addCustomCodeExec, if_neg h, if_pos hlen]
    refine ⟨trivial,
      ⟨"Script exceeds the ",
       " limit (" ++ toString args.sourceCode.length ++
         " characters). Consider hosting the script externally.", ?_⟩,
      ⟨"Script exceeds the 2000 character limit (",
       " characters). Consider hosting the script externally.", ?_⟩, trivial⟩
    · rw [show ("Script exceeds the 2000 character limit (" : String) =
            "Script exceeds the 2000 character" ++ " limit (" from by decide,
          show ("Script exceeds the " : String) ++ "2000 character" =
            "Script exceeds the 2000 character" from by decide,
          String.append_assoc, String.append_assoc, String.append_assoc]
    · simp [String.append_assoc]

/-- A concrete context for exercising the precondition checks. -/
def ctxC2 : ToolCtx := { apiKey := "key", defaultSiteId := "", net := fun _ => NetResp.ok [] }

/-- A page-target invocation without a pageId. -/
def argsC2a : AddCustomCodeArgs :=
  { siteId := some "site-1", target := .page, pageId := none,
    sourceCode := "console.log(1);", displayName := "Oops", version := "1.0.0",
    location := .footer }

/-- A site-target invocation with a 2001-character source. -/
def argsC2b : AddCustomCodeArgs :=
  { siteId := some "site-1", target := .site, pageId := none,
    sourceCode := String.mk (List.replicate 2001 'x'), displayName := "Too Long",
    version := "1.0.0", location := .footer }

/-- The oversized source really has 2001 characters. -/
theorem argsC2b_oversized : argsC2b.sourceCode.length > 2000 := by
  show (List.replicate 2001 'x').length > 2000
  rw [List.length_replicate]
  omega

/-- C2 witness: the pageId precondition at a concrete page-target
invocation without a pageId, and the size precondition at a concrete
2001-character source. -/
theorem addCustomCode_precondition_checks_witness :
    (argsC2a.target = CodeTarget.page ∧ argsC2a.pageId.getD "" = "") ∧
    (addCustomCodeExec ctxC2 argsC2a).1.success = false ∧
    (addCustomCodeExec ctxC2 argsC2a).2 = [] ∧
    ¬(argsC2b.target = CodeTarget.page ∧ argsC2b.pageId.getD "" = "") ∧
    argsC2b.sourceCode.length > 2000 ∧
    (addCustomCodeExec ctxC2 argsC2b).1.success = false ∧
    (addCustomCodeExec ctxC2 argsC2b).2 = [] := by
  have ha := (addCustomCode_precondition_checks ctxC2 argsC2a).1 (by decide)
  have hb := (addCustomCode_precondition_checks ctxC2 argsC2b).2 (by decide) argsC2b_oversized
  exact ⟨by decide, ha.1, ha.2.2, by decide, argsC2b_oversized, hb.1, hb.2.2.2⟩

/-- C3: on the happy path (preconditions pass, the site id resolves, the
registration call returns `{id:"script-123"}` and the application call
succeeds) the composite workflow returns
`{success:true, scriptId:"script-123", appliedTo:"site:<siteId>"}` (or
`"page:<pageId>"` for a page target) and exactly two network calls are
made, the registration POST first and the application PUT second. -/
theorem addCustomCode_happy_path (ctx : ToolCtx) (args : AddCustomCodeArgs) (s : String)
    (fields : List (String × JSVal))
    (hpre : ¬(args.target = CodeTarget.page ∧ args.pageId.getD "" = ""))
    (hlen : ¬(args.sourceCode.length > 2000))
    (hsid : resolveSiteId ctx args.siteId = .ok s)
    (hkey : ¬(ctx.apiKey = ""))
    (hreg : ctx.net 0 = NetResp.ok [("id", JSVal.vstr "script-123")])
    (happ : ctx.net 1 = NetResp.ok fields) :
    (addCustomCodeExec ctx args).1.success = true ∧
    (addCustomCodeExec ctx args).1.scriptId = "script-123" ∧
    (addCustomCodeExec ctx args).1.error = none ∧
    (addCustomCodeExec ctx args).2.length = 2 ∧
    (args.target = CodeTarget.site →
      (addCustomCodeExec ctx args).1.appliedTo = some ("site:" ++ s) ∧
      (addCustomCodeExec ctx args).2 =
        [{ path := "/sites/" ++ s ++ "/registered_scripts/inline", method := "POST",
           body := some [("sourceCode", JSVal.vstr args.sourceCode),
                         ("version", JSVal.vstr args.version),
                         ("displayName", JSVal.vstr args.displayName)], params := [] },
         { path := "/sites/" ++ s ++ "/custom_code", method := "PUT",
           body := some [("scripts", JSVal.varr [JSVal.vobj
             [("id", JSVal.vstr "script-123"),
              ("location", JSVal.vstr args.location.toStr),
              ("version", JSVal.vstr args.version)]])], params := [] }]) ∧
    (∀ pid, args.target = CodeTarget.page → args.pageId = some pid →
      (addCustomCodeExec ctx args).1.appliedTo = some ("page:" ++ pid) ∧
      (addCustomCodeExec ctx args).2 =
        [{ path := "/sites/" ++ s ++ "/registered_scripts/inline", method := "POST",
           body := some [("sourceCode", JSVal.vstr args.sourceCode),
                         ("version", JSVal.vstr args.version),
                         ("displayName", JSVal.vstr args.displayName)], params := [] },
         { path := "/pages/" ++ pid ++ "/custom_code", method := "PUT",
           body := some [("scripts", JSVal.varr [JSVal.vobj
             [("id", JSVal.vstr "script-123"),
              ("location", JSVal.vstr args.location.toStr),
              ("version", JSVal.vstr args.version)]])], params := [] }]) := by
  simp only [addCustomCodeExec, doCall, if_neg hpre, if_neg hlen, hsid, if_neg hkey, hreg, happ]
  simp only [fieldOf, lookupField, nullish, jsString]
  refine ⟨?succ, ?sid, ?err, ?len, ?site, ?page⟩
  case succ => rfl
  case sid => rfl
  case err => rfl
  case len => rfl
  case site =>
    intro ht
    have hcond : ¬(args.target = CodeTarget.page ∧ args.pageId.getD "" ≠ "") := by
      rw [ht]; rintro ⟨hh, _⟩; exact CodeTarget.noConfusion hh
    rw [if_neg hcond, ht]
    exact ⟨rfl, rfl⟩
  case page =>
    intro pid ht hp
    have hne : pid ≠ "" := by
      intro hh
      exact hpre ⟨ht, by rw [hp, hh]; rfl⟩
    have hcond : args.target = CodeTarget.page ∧ args.pageId.getD "" ≠ "" := by
      refine ⟨ht, ?_⟩
      rw [hp]
      exact hne
    rw [if_pos hcond, ht, hp]
    exact ⟨rfl, rfl⟩

/-- A concrete context whose first response registers `script-123` and
whose second response accepts the application. -/
def ctxC3 : ToolCtx :=
  { apiKey := "key", defaultSiteId := "",
    net := fun idx => if idx = 0 then NetResp.ok [("id", JSVal.vstr "script-123")]
                      else NetResp.ok [] }

/-- A concrete site-target invocation for the happy path. -/
def argsC3 : AddCustomCodeArgs :=
  { siteId := some "site-1", target := .site, pageId := none,
    sourceCode := "console.log(1);", displayName := "Hello Script", version := "1.0.0",
    location := .footer }

/-- C3 witness: the happy path evaluated at the concrete invocation. -/
theorem addCustomCode_happy_path_witness :
    (addCustomCodeExec ctxC3 argsC3).1.success = true ∧
    (addCustomCodeExec ctxC3 argsC3).1.scriptId = "script-123" ∧
    (addCustomCodeExec ctxC3 argsC3).1.appliedTo = some ("site:" ++ "site-1") ∧
    (addCustomCodeExec ctxC3 argsC3).2.length = 2 := by
  have h := addCustomCode_happy_path ctxC3 argsC3 "site-1" [] (by decide) (by decide) rfl
    (by decide) rfl rfl
  exact ⟨h.1, h.2.1, (h.2.2.2.2.1 rfl).1, h.2.2.2.1⟩

/-- C1 amended: when registration succeeded with a non-empty script
identifier but the application call fails, the overall result has the
success flag false and a non-empty error string, but its `scriptId`
field is the EMPTY string — the step-1 identifier is not preserved,
because the thrown step-2 error lands in the catch clause that returns
`scriptId: ""`.  Exactly two network calls were still made. -/
theorem addCustomCode_step2_failure (ctx : ToolCtx) (args : AddCustomCodeArgs) (s : String)
    (reg : List (String × JSVal)) (status : Nat) (text : String)
    (hpre : ¬(args.target = CodeTarget.page ∧ args.pageId.getD "" = ""))
    (hlen : ¬(args.sourceCode.length > 2000))
    (hsid : resolveSiteId ctx args.siteId = .ok s)
    (hkey : ¬(ctx.apiKey = ""))
    (hreg : ctx.net 0 = NetResp.ok reg)
    (hid : jsString (nullish (fieldOf reg "id") (JSVal.vstr "")) ≠ "")
    (happ : ctx.net 1 = NetResp.fail status text) :
    (addCustomCodeExec ctx args).1.success = false ∧
    (addCustomCodeExec ctx args).1.scriptId = "" ∧
    (addCustomCodeExec ctx args).1.scriptId ≠
      jsString (nullish (fieldOf reg "id") (JSVal.vstr "")) ∧
    (∃ m, (addCustomCodeExec ctx args).1.error = some m ∧ m ≠ "") ∧
    (addCustomCodeExec ctx args).1.appliedTo = none ∧
    (addCustomCodeExec ctx args).2.length = 2 := by
  simp only [addCustomCodeExec, doCall, if_neg hpre, if_neg hlen, hsid, if_neg hkey, hreg, happ,
    if_neg hid]
  refine ⟨?_, ?_, fun hh => hid hh.symm, ⟨(JsErr.upstream status text).message, ?_,
    JsErr.message_ne_empty _⟩, ?_, ?_⟩ <;> trivial

/-- A concrete context whose first response registers `script-123` and
whose second response is an HTTP 500 failure. -/
def ctxC1 : ToolCtx :=
  { apiKey := "key", defaultSiteId := "",
    net := fun idx => if idx = 0 then NetResp.ok [("id", JSVal.vstr "script-123")]
                      else NetResp.fail 500 "Internal Server Error" }

/-- A concrete site-target invocation whose application step will fail. -/
def argsC1 : AddCustomCodeArgs :=
  { siteId := some "site-1", target := .site, pageId := none,
    sourceCode := "console.log(1);", displayName := "Hello Script", version := "1.0.0",
    location := .footer }

/-- C1 counterexample: at this invocation step 1 returns the non-empty
identifier `script-123` and step 2 fails with HTTP 500, yet the result
does NOT carry the step-1 identifier in its `scriptId` field — the field
is the empty string (the claim would require `"script-123"`). -/
theorem addCustomCode_scriptId_dropped :
    ctxC1.net 0 = NetResp.ok [("id", JSVal.vstr "script-123")] ∧
    ctxC1.net 1 = NetResp.fail 500 "Internal Server Error" ∧
    (addCustomCodeExec ctxC1 argsC1).1.success = false ∧
    (addCustomCodeExec ctxC1 argsC1).1.error =
      some "Webflow API error 500: Internal Server Error" ∧
    (addCustomCodeExec ctxC1 argsC1).1.scriptId = "" ∧
    (addCustomCodeExec ctxC1 argsC1).1.scriptId ≠ "script-123" :=
  ⟨rfl, rfl, rfl, rfl, rfl, by decide⟩

/-- C1 witness: the amended step-2 failure behavior evaluated at the
concrete invocation. -/
theorem addCustomCode_step2_failure_witness :
    (addCustomCodeExec ctxC1 argsC1).1.success = false ∧
    (addCustomCodeExec ctxC1 argsC1).1.scriptId = "" ∧
    (addCustomCodeExec ctxC1 argsC1).2.length = 2 := by
  have h := addCustomCode_step2_failure ctxC1 argsC1 "site-1"
    [("id", JSVal.vstr "script-123")] 500 "Internal Server Error"
    (by decide) (by decide) rfl (by decide) rfl (by decide) rfl
  exact ⟨h.1, h.2.1, h.2.2.2.2.2⟩

/-- C8: the `updatePage` upstream request body contains exactly the
fields the caller supplied (each optional argument contributes its key
only when present); in particular an invocation carrying only
`{pageId, title}` sends the body `{title}` with no `slug`, `seo` or
`openGraph` keys. -/
theorem updatePage_partial_body (ctx : ToolCtx) (args : UpdatePageArgs)
    (hkey : ¬(ctx.apiKey = "")) :
    (updatePageExec ctx args).2 =
      [{ path := "/pages/" ++ args.pageId, method := "PUT",
         body := some
           ((match args.title with | some t => [("title", JSVal.vstr t)] | none => []) ++
            (match args.slug with | some sl => [("slug", JSVal.vstr sl)] | none => []) ++
            (match args.seo with | some se => [("seo", seoArgsToJson se)] | none => []) ++
            (match args.openGraph with
             | some og => [("openGraph", seoArgsToJson og)] | none => [])),
         params := [] }] ∧
    (∀ p t, (updatePageExec ctx { pageId := p, title := some t }).2 =
      [{ path := "/pages/" ++ p, method := "PUT",
         body := some [("title", JSVal.vstr t)], params := [] }]) := by
  constructor
  · simp only [updatePageExec, doCall, if_neg hkey]
    cases ctx.net 0 with
    | ok fields =>
      split <;> rfl
    | fail status text => rfl
  · intro p t
    simp only [updatePageExec, doCall, if_neg hkey]
    cases ctx.net 0 with
    | ok fields =>
      split <;> rfl
    | fail status text => rfl

/-- A concrete context for exercising the request-body claims. -/
def ctxC8 : ToolCtx := { apiKey := "key", defaultSiteId := "", net := fun _ => NetResp.ok [] }

/-- C8 witness: invoking with only `{pageId:"p1", title:"T"}` sends
exactly the body `{title:"T"}`. -/
theorem updatePage_partial_body_witness :
    (updatePageExec ctxC8 { pageId := "p1", title := some "T" }).2 =
      [{ path := "/pages/" ++ "p1", method := "PUT",
         body := some [("title", JSVal.vstr "T")], params := [] }] :=
  (updatePage_partial_body ctxC8 { pageId := "p1", title := some "T" }
    (by decide)).2 "p1" "T"

/-- C10: the `publishSite` upstream request body always contains the
`publishToWebflowSubdomain` key (defaulted to `false` when the caller
omitted the flag) and contains a `customDomains` key exactly when the
caller supplied a non-empty array; supplying an empty `customDomains`
array behaves identically to omitting the argument. -/
theorem publishSite_body_shape (ctx : ToolCtx) (args : PublishSiteArgs) (s : String)
    (hkey : ¬(ctx.apiKey = "")) (hsid : resolveSiteId ctx args.siteId = .ok s) :
    (publishSiteExec ctx args).2 =
      [{ path := "/sites/" ++ s ++ "/publish", method := "POST",
         body := some
           ([("publishToWebflowSubdomain",
              JSVal.vbool (args.publishToWebflowSubdomain.getD false))] ++
            (match args.customDomains with
             | some ds =>
               if ds.length > 0 then [("customDomains", JSVal.varr (ds.map JSVal.vstr))] else []
             | none => [])),
         params := [] }] ∧
    publishSiteExec ctx { args with customDomains := some [] } =
      publishSiteExec ctx { args with customDomains := none } := by
  constructor
  · simp only [publishSiteExec, doCall, hsid, if_neg hkey]
    cases ctx.net 0 with
    | ok fields =>
      split <;> rfl
    | fail status text => rfl
  · simp only [publishSiteExec]
    rfl

/-- C10 witness: the publish body at a concrete invocation omitting both
optional arguments, and the empty-array/omitted agreement at a concrete
invocation. -/
theorem publishSite_body_shape_witness :
    (publishSiteExec ctxC8 { siteId := some "site-1" }).2 =
      [{ path := "/sites/" ++ "site-1" ++ "/publish", method := "POST",
         body := some
           ([("publishToWebflowSubdomain", JSVal.vbool false)] ++ []),
         params := [] }] ∧
    publishSiteExec ctxC8 { siteId := some "site-1", customDomains := some [] } =
      publishSiteExec ctxC8 { siteId := some "site-1", customDomains := none } :=
  ⟨(publishSite_body_shape ctxC8 { siteId := some "site-1" } "site-1" (by decide) rfl).1,
   (publishSite_body_shape ctxC8 { siteId := some "site-1" } "site-1" (by decide) rfl).2⟩
